import Mathlib

/-!
Verification of the Himalayan Sentinel alert core: the risk classifier,
telemetry summary and alert-log builder extracted from
`src/components/AvalancheView.tsx` (handleAnalysis, lines 89-100) and the
variant in `src/components/TerrainView.tsx` (handleAnalysis, lines 506-521).
Numeric scores and thresholds are JavaScript numbers used only in order
comparisons; they are embedded as rationals.
-/

namespace Sentinel

/-- The discrete risk level stored on an alert log entry
(`AlertLogEntry.riskLevel` in both views). -/
inductive RiskLevel where
  | Low
  | Moderate
  | High
  | Critical
deriving DecidableEq, Repr

/-- A sector telemetry reading: the fields of the `SECTOR_DATA` /
`riskData` records that the alert logic reads (`zone` and `risk`;
the spec calls the latter `riskScore`). -/
structure SectorReading where
  zone : String
  risk : ℚ
deriving DecidableEq, Repr

/-- The risk classifier: the ternary at `AvalancheView.tsx:96`
(`maxRiskVal > 80 ? 'Critical' : maxRiskVal > 50 ? 'High' : 'Low'`),
the pure function the spec names `classify`. -/
def classify (score : ℚ) : RiskLevel :=
  if score > 80 then .Critical
  else if score > 50 then .High
  else .Low

/-- Result of the telemetry summary, per the spec contract
`summarize(readings, threshold) -> { maxScore, affected }`. -/
structure Summary where
  maxScore : ℚ
  affected : List SectorReading
deriving DecidableEq, Repr

/-- Telemetry summary as computed inline at `AvalancheView.tsx:89-90`:
`affected` is `SECTOR_DATA.filter(z => z.risk > alertThreshold)` and
`maxScore` is `Math.max(...SECTOR_DATA.map(z => z.risk), 0)`, the maximum
over ALL readings with floor 0. -/
def summarize (readings : List SectorReading) (threshold : ℚ) : Summary :=
  { maxScore := (readings.map (·.risk)).foldr max 0
    affected := readings.filter (fun z => decide (z.risk > threshold)) }

/-- An alert log entry, per `interface AlertLogEntry` in both views
(`id`, `timestamp`, `zones`, `riskLevel`, `message`, `threshold`,
`audience`). -/
structure AlertLogEntry where
  id : ℕ
  timestamp : String
  zones : List String
  riskLevel : RiskLevel
  message : String
  threshold : ℚ
  audience : String
deriving DecidableEq, Repr

/-- The alert log builder of `AvalancheView.tsx:89-100`: filters the
affected zones, takes the global maximum risk (floor 0), derives the
level by the `> 80` / `> 50` ternary, and assembles the entry. `now`
and `nowText` stand for the injected `Date.now()` /
`new Date().toLocaleString()` of the source, per the spec contract
`buildAlertEntry(readings, threshold, audience, message, now)`. -/
def buildAlertEntry (readings : List SectorReading) (threshold : ℚ)
    (audience : String) (message : String) (now : ℕ) (nowText : String) :
    AlertLogEntry :=
  let affectedZones :=
    (readings.filter (fun z => decide (z.risk > threshold))).map (·.zone)
  let maxRiskVal : ℚ := (readings.map (·.risk)).foldr max 0
  { id := now
    timestamp := nowText
    zones := affectedZones
    riskLevel :=
      if maxRiskVal > 80 then .Critical
      else if maxRiskVal > 50 then .High
      else .Low
    message := message
    threshold := threshold
    audience := audience }

/-- The alert log builder variant of `TerrainView.tsx:506-521`: here
`maxRiskVal` is `Math.max(...riskData.filter(z => z.risk > alertThreshold)
.map(z => z.risk), 0)` — the maximum over the AFFECTED subset only — and
a fourth branch yields `Moderate` when some zone is affected but the
filtered maximum is at most 50. -/
def terrainBuildAlertEntry (readings : List SectorReading) (threshold : ℚ)
    (audience : String) (message : String) (now : ℕ) (nowText : String) :
    AlertLogEntry :=
  let affectedZones :=
    (readings.filter (fun z => decide (z.risk > threshold))).map (·.zone)
  let maxRiskVal : ℚ :=
    ((readings.filter (fun z => decide (z.risk > threshold))).map
      (·.risk)).foldr max 0
  let riskLevel : RiskLevel :=
    if maxRiskVal > 80 then .Critical
    else if maxRiskVal > 50 then .High
    else if affectedZones.length > 0 then .Moderate
    else .Low
  { id := now
    timestamp := nowText
    zones := affectedZones
    riskLevel := riskLevel
    message := message
    threshold := threshold
    audience := audience }

/-- The caller's log update `setHistory(prev => [newLog, ...prev])`
(`AvalancheView.tsx:102`, `TerrainView.tsx:523`): the new entry is
prepended, newest first. -/
def prependLog (entry : AlertLogEntry) (log : List AlertLogEntry) :
    List AlertLogEntry :=
  entry :: log

/-- Claim C1: for every list of readings and every threshold, the riskLevel
of the entry produced by `buildAlertEntry` equals the risk classifier applied
to the maximum riskScore over ALL readings (not just those exceeding the
threshold); in particular, for the readings
[(Rakhiot Face, 85), (Diamir Base, 45), (Rupal Face, 92)] with threshold 95,
the affected list is empty yet the riskLevel is Critical. -/
theorem buildAlertEntry_riskLevel_uses_global_max :
    (∀ (readings : List SectorReading) (t : ℚ) (a m : String)
        (now : ℕ) (s : String),
      (buildAlertEntry readings t a m now s).riskLevel
        = classify (summarize readings t).maxScore) ∧
    (buildAlertEntry
        [⟨"Rakhiot Face", 85⟩, ⟨"Diamir Base", 45⟩, ⟨"Rupal Face", 92⟩]
        95 "public" "" 0 "").zones = [] ∧
    (buildAlertEntry
        [⟨"Rakhiot Face", 85⟩, ⟨"Diamir Base", 45⟩, ⟨"Rupal Face", 92⟩]
        95 "public" "" 0 "").riskLevel = RiskLevel.Critical :=
  ⟨fun readings t a m now s => rfl, by decide, by decide⟩

/-- Claim C2: for every score in [0,100], `classify score` is Critical iff
score > 80, High iff 50 < score ≤ 80, Low iff score ≤ 50, and it never
returns Moderate on this range. -/
theorem classify_buckets_on_range (score : ℚ)
    (h0 : 0 ≤ score) (h100 : score ≤ 100) :
    (classify score = RiskLevel.Critical ↔ score > 80) ∧
    (classify score = RiskLevel.High ↔ 50 < score ∧ score ≤ 80) ∧
    (classify score = RiskLevel.Low ↔ score ≤ 50) ∧
    classify score ≠ RiskLevel.Moderate := by
  unfold classify
  split_ifs with h1 h2 <;>
    refine ⟨?_, ?_, ?_, ?_⟩ <;> simp_all <;> try linarith

/-- Witness for C2 at score 60: the hypotheses 0 ≤ 60 and 60 ≤ 100 hold and
the bucket characterisation follows. -/
theorem classify_buckets_on_range_witness :
    (classify 60 = RiskLevel.Critical ↔ (60 : ℚ) > 80) ∧
    (classify 60 = RiskLevel.High ↔ 50 < (60 : ℚ) ∧ (60 : ℚ) ≤ 80) ∧
    (classify 60 = RiskLevel.Low ↔ (60 : ℚ) ≤ 50) ∧
    classify 60 ≠ RiskLevel.Moderate :=
  classify_buckets_on_range 60 (by norm_num) (by norm_num)

/-- Claim C3: for every list of readings and every threshold t,
`(summarize readings t).affected` is a sub-sequence of the readings
(preserving input order) and contains exactly the elements whose riskScore
is strictly greater than t, and no others. -/
theorem summarize_affected_exactly_above_threshold
    (readings : List SectorReading) (t : ℚ) :
    List.Sublist (summarize readings t).affected readings ∧
    ∀ z, z ∈ (summarize readings t).affected ↔ z ∈ readings ∧ z.risk > t := by
  refine ⟨List.filter_sublist _, fun z => ?_⟩
  simp [summarize, List.mem_filter]

/-- Claim C4: on the empty readings list no error occurs: for every
threshold, `summarize` returns maxScore 0 and an empty affected list, and
`buildAlertEntry` still produces an entry with riskLevel Low and no
affected zones. -/
theorem empty_readings_total (t : ℚ) (a m : String) (now : ℕ) (s : String) :
    summarize [] t = ⟨0, []⟩ ∧
    (buildAlertEntry [] t a m now s).riskLevel = RiskLevel.Low ∧
    (buildAlertEntry [] t a m now s).zones = [] :=
  ⟨rfl, rfl, rfl⟩

/-- Claim C5: for the single reading (zone A, riskScore 30) with threshold
10, the entry has affected = [A], maxScore = 30, and riskLevel Low (not
Moderate). -/
theorem scenario_single_reading_low (a m : String) (now : ℕ) (s : String) :
    (summarize [⟨"A", 30⟩] 10).affected = [⟨"A", 30⟩] ∧
    (summarize [⟨"A", 30⟩] 10).maxScore = 30 ∧
    (buildAlertEntry [⟨"A", 30⟩] 10 a m now s).zones = ["A"] ∧
    (buildAlertEntry [⟨"A", 30⟩] 10 a m now s).riskLevel = RiskLevel.Low :=
  ⟨by decide, by decide, rfl, rfl⟩

/-- Claim C6: out-of-range scores classify as if clamped to [0,100]: for
every score below 0 the result agrees with `classify 0`, and for every
score above 100 it agrees with `classify 100`. -/
theorem classify_out_of_range_clamped (score : ℚ) :
    (score < 0 → classify score = classify 0) ∧
    (score > 100 → classify score = classify 100) := by
  constructor <;> intro h <;> unfold classify <;>
    split_ifs <;> first | rfl | linarith

/-- Witness for C6 at scores -7 and 101: both hypotheses are discharged
concretely. -/
theorem classify_out_of_range_clamped_witness :
    classify (-7) = classify 0 ∧ classify 101 = classify 100 :=
  ⟨(classify_out_of_range_clamped (-7)).1 (by norm_num),
   (classify_out_of_range_clamped 101).2 (by norm_num)⟩

/-- Claim C7: two calls of `buildAlertEntry` with identical arguments
(readings, threshold, audience, message, and the same injected now) produce
entries equal in every field — in particular in every field except possibly
id. -/
theorem buildAlertEntry_repeat_fields_eq (readings : List SectorReading)
    (t : ℚ) (a m : String) (now : ℕ) (s : String) (e1 e2 : AlertLogEntry)
    (h1 : e1 = buildAlertEntry readings t a m now s)
    (h2 : e2 = buildAlertEntry readings t a m now s) :
    e1.id = e2.id ∧ e1.timestamp = e2.timestamp ∧ e1.zones = e2.zones ∧
    e1.riskLevel = e2.riskLevel ∧ e1.message = e2.message ∧
    e1.threshold = e2.threshold ∧ e1.audience = e2.audience := by
  subst h1; subst h2
  exact ⟨rfl, rfl, rfl, rfl, rfl, rfl, rfl⟩

/-- Witness for C7: two calls with identical concrete arguments agree on
every field. -/
theorem buildAlertEntry_repeat_fields_eq_witness :
    (buildAlertEntry [⟨"A", 30⟩] 10 "public" "msg" 7 "now").id
      = (buildAlertEntry [⟨"A", 30⟩] 10 "public" "msg" 7 "now").id ∧
    (buildAlertEntry [⟨"A", 30⟩] 10 "public" "msg" 7 "now").timestamp
      = (buildAlertEntry [⟨"A", 30⟩] 10 "public" "msg" 7 "now").timestamp ∧
    (buildAlertEntry [⟨"A", 30⟩] 10 "public" "msg" 7 "now").zones
      = (buildAlertEntry [⟨"A", 30⟩] 10 "public" "msg" 7 "now").zones ∧
    (buildAlertEntry [⟨"A", 30⟩] 10 "public" "msg" 7 "now").riskLevel
      = (buildAlertEntry [⟨"A", 30⟩] 10 "public" "msg" 7 "now").riskLevel ∧
    (buildAlertEntry [⟨"A", 30⟩] 10 "public" "msg" 7 "now").message
      = (buildAlertEntry [⟨"A", 30⟩] 10 "public" "msg" 7 "now").message ∧
    (buildAlertEntry [⟨"A", 30⟩] 10 "public" "msg" 7 "now").threshold
      = (buildAlertEntry [⟨"A", 30⟩] 10 "public" "msg" 7 "now").threshold ∧
    (buildAlertEntry [⟨"A", 30⟩] 10 "public" "msg" 7 "now").audience
      = (buildAlertEntry [⟨"A", 30⟩] 10 "public" "msg" 7 "now").audience :=
  buildAlertEntry_repeat_fields_eq [⟨"A", 30⟩] 10 "public" "msg" 7 "now"
    _ _ rfl rfl

/-- Claim C8: the builder is pure and the caller prepends the returned
entry (newest-first): after the log update, the new entry is the head and
every previously logged entry remains unchanged at its shifted position. -/
theorem prependLog_preserves_log (readings : List SectorReading) (t : ℚ)
    (a m : String) (now : ℕ) (s : String) (log : List AlertLogEntry) :
    (prependLog (buildAlertEntry readings t a m now s) log).head?
      = some (buildAlertEntry readings t a m now s) ∧
    (prependLog (buildAlertEntry readings t a m now s) log).tail = log ∧
    ∀ i : ℕ, (prependLog (buildAlertEntry readings t a m now s) log).get?
        (i + 1) = log.get? i :=
  ⟨rfl, rfl, fun _ => rfl⟩

/-- Claim C9: the audience argument does not influence the computation:
two runs differing only in audience agree on every field except the stored
audience field, which records the given audience. -/
theorem buildAlertEntry_audience_independent (readings : List SectorReading)
    (t : ℚ) (a1 a2 m : String) (now : ℕ) (s : String) :
    (buildAlertEntry readings t a1 m now s).id
      = (buildAlertEntry readings t a2 m now s).id ∧
    (buildAlertEntry readings t a1 m now s).timestamp
      = (buildAlertEntry readings t a2 m now s).timestamp ∧
    (buildAlertEntry readings t a1 m now s).zones
      = (buildAlertEntry readings t a2 m now s).zones ∧
    (buildAlertEntry readings t a1 m now s).riskLevel
      = (buildAlertEntry readings t a2 m now s).riskLevel ∧
    (buildAlertEntry readings t a1 m now s).message
      = (buildAlertEntry readings t a2 m now s).message ∧
    (buildAlertEntry readings t a1 m now s).threshold
      = (buildAlertEntry readings t a2 m now s).threshold ∧
    (buildAlertEntry readings t a1 m now s).audience = a1 :=
  ⟨rfl, rfl, rfl, rfl, rfl, rfl, rfl⟩

/-- Claim C10: in the TerrainView variant, the produced entry has riskLevel
Low if and only if the affected zones list is empty: any affected zone
forces at least Moderate, and with no affected zone the entry is Low
regardless of the global maximum riskScore. -/
theorem terrain_riskLevel_low_iff_no_affected (readings : List SectorReading)
    (t : ℚ) (a m : String) (now : ℕ) (s : String) :
    (terrainBuildAlertEntry readings t a m now s).riskLevel = RiskLevel.Low ↔
    (terrainBuildAlertEntry readings t a m now s).zones = [] := by
  cases h : readings.filter (fun z => decide (z.risk > t)) with
  | nil => simp [terrainBuildAlertEntry, h]; norm_num
  | cons x xs =>
      simp only [terrainBuildAlertEntry, h]
      split_ifs <;> simp_all

end Sentinel
